import Mathlib

/-!
Verification development for the recording-session lifecycle and
upload-coordination engine of the Cap desktop application
(apps/desktop/src-tauri/src/recording.rs).

The Rust code is shallowly embedded as pure Lean functions.  External
collaborators (filesystem, network, capture engine, UI windows, clocks)
are modelled by an explicit environment record of their outcomes, and
every externally visible action the code performs is recorded in an
ordered trace of effects.  Each lifecycle command becomes a function
from an environment and an application state to a result, a new state,
and the effect trace it produced, following the statement order of the
Rust source.
-/

namespace Cap

/-- Recording mode, from cap_recording::RecordingMode. -/
inductive RecordingMode
  | instant
  | studio
deriving DecidableEq, Repr

/-- Capture target, from cap_media::sources::ScreenCaptureTarget.
The screen variant carries the optional platform title returned by
get_title (external); geometry payloads not consulted by recording.rs
are omitted. -/
inductive ScreenCaptureTarget
  | screen (id : Nat) (title : Option String)
  | window (id : Nat)
  | area (screen : Nat)
deriving DecidableEq, Repr

/-- Inputs of start_recording, from struct StartRecordingInputs. -/
structure StartRecordingInputs where
  capture_target : ScreenCaptureTarget
  capture_system_audio : Bool
  mode : RecordingMode
deriving DecidableEq, Repr

/-- Pre-created remote video identity, from struct VideoUploadInfo
(id, shareable link, S3 upload config - the config is kept as an opaque
token). -/
structure VideoUploadInfo where
  id : String
  link : String
  config : String
deriving DecidableEq, Repr

/-- One capture segment of a studio recording as seen by
ProjectRecordingsMeta; only its duration is consulted by recording.rs. -/
structure SegmentMeta where
  duration : ℚ
deriving DecidableEq, Repr

/-- From cap_rendering::ProjectRecordingsMeta: the per-segment metadata of
a studio recording. -/
structure ProjectRecordingsMeta where
  segments : List SegmentMeta
deriving DecidableEq, Repr

/-- Total duration of a studio recording.  The real method lives in the
external cap_rendering crate; its value is bound but never used by the
live code of recording.rs (only by the commented-out zoom heuristic). -/
def ProjectRecordingsMeta.duration (r : ProjectRecordingsMeta) : ℚ :=
  (r.segments.map SegmentMeta.duration).sum

/-- From cap_project::ZoomSegment. -/
structure ZoomSegment where
  start : ℚ
  «end» : ℚ
  amount : ℚ
deriving DecidableEq, Repr

/-- From cap_project::TimelineSegment. -/
structure TimelineSegment where
  recording_segment : Nat
  start : ℚ
  «end» : ℚ
  timescale : ℚ
deriving DecidableEq, Repr

/-- From cap_project::TimelineConfiguration. -/
structure TimelineConfiguration where
  segments : List TimelineSegment
  zoom_segments : List ZoomSegment
deriving DecidableEq, Repr

/-- From cap_project::ProjectConfiguration: the timeline plus all the
remaining configuration fields, which recording.rs copies wholesale from
the default preset (the struct-update `..default_config.unwrap_or_default()`);
they are collapsed into one opaque field. -/
structure ProjectConfiguration where
  timeline : Option TimelineConfiguration
  rest : Nat
deriving DecidableEq, Repr

instance : Inhabited ProjectConfiguration := ⟨⟨none, 0⟩⟩

/-- A mouse click event from the studio recording's cursor data, as read
by the (commented-out) zoom heuristic. -/
structure Click where
  process_time_ms : ℚ
  down : Bool
deriving DecidableEq, Repr

/-- From cap_project::StudioRecordingMeta: where the display capture of
each segment lives on disk. -/
inductive StudioRecordingMeta
  | singleSegment (display_path : String)
  | multipleSegments (segment_display_paths : List String)
deriving DecidableEq, Repr

/-- From cap_recording::instant_recording::CompletedInstantRecording. -/
structure CompletedInstantRecording where
  id : String
  project_path : String
deriving DecidableEq, Repr

/-- From cap_recording::CompletedStudioRecording, with the cursor click
list that the disabled zoom heuristic would read. -/
structure CompletedStudioRecording where
  id : String
  project_path : String
  meta : StudioRecordingMeta
  clicks : List Click
deriving DecidableEq, Repr

/-- The active session, from enum InProgressRecording.  Capture handles
are opaque identifiers; the progressive upload task handle is modelled by
its presence.  Note the instant variant requires a VideoUploadInfo - the
type has no room for an instant session without an upload ticket. -/
inductive InProgressRecording
  | instant (target_name : String) (handle : Nat)
      (progressive_upload : Option Unit) (video_upload_info : VideoUploadInfo)
      (inputs : StartRecordingInputs) (recording_dir : String)
  | studio (target_name : String) (handle : Nat)
      (inputs : StartRecordingInputs) (recording_dir : String)
deriving DecidableEq, Repr

/-- Accessor InProgressRecording::inputs. -/
def InProgressRecording.inputs : InProgressRecording → StartRecordingInputs
  | .instant _ _ _ _ inputs _ => inputs
  | .studio _ _ inputs _ => inputs

/-- Accessor InProgressRecording::recording_dir. -/
def InProgressRecording.recording_dir : InProgressRecording → String
  | .instant _ _ _ _ _ d => d
  | .studio _ _ _ d => d

/-- Whether the session is an instant one. -/
def InProgressRecording.isInstant : InProgressRecording → Bool
  | .instant _ _ _ _ _ _ => true
  | .studio _ _ _ _ => false

/-- From enum CompletedRecording, produced by InProgressRecording::stop. -/
inductive CompletedRecording
  | instant (recording : CompletedInstantRecording) (target_name : String)
      (progressive_upload : Option Unit) (video_upload_info : VideoUploadInfo)
  | studio (recording : CompletedStudioRecording) (target_name : String)
deriving DecidableEq, Repr

/-- Accessor CompletedRecording::project_path. -/
def CompletedRecording.project_path : CompletedRecording → String
  | .instant recording _ _ _ => recording.project_path
  | .studio recording _ => recording.project_path

/-- Post-studio-recording behaviour, from general_settings. -/
inductive PostStudioRecordingBehaviour
  | openEditor
  | showOverlay
deriving DecidableEq, Repr

/-- Main-window behaviour at recording start, from general_settings. -/
inductive MainWindowRecordingStartBehaviour
  | close
  | minimise
deriving DecidableEq, Repr

/-- The mutable application state relevant to recording.rs: the single
current-session slot plus the camera and microphone feed slots that
handle_recording_end may release. -/
structure App where
  current_recording : Option InProgressRecording
  camera_feed : Option Unit
  mic_feed : Option Unit
deriving DecidableEq, Repr

/-- Modelled from the spec: App::clear_current_recording lives outside
this file's source; per section 4.3 of the design it atomically removes
the Session from shared state and hands it to the caller. -/
def App.clear_current_recording (st : App) :
    Option InProgressRecording × App :=
  (st.current_recording, { st with current_recording := none })

/-- Modelled from the spec: App::set_current_recording lives outside this
file's source; per section 4.2 it stores the freshly built Session in the
shared slot. -/
def App.set_current_recording (st : App) (r : InProgressRecording) : App :=
  { st with current_recording := some r }

/-- Every observable action recording.rs can perform on its external
collaborators, in the order the code performs them. -/
inductive Effect
  | ensureDir (path : String)
  | createLogfile (path : String)
  | reloadLogging (active : Bool)
  | setContentProtected (enabled : Bool)
  | preCreateVideo
  | showOccluder (screen_id : Nat)
  | spawnMultipartUpload
  | spawnCaptureActor
  | storeSession
  | spawnMonitor
  | closeMainWindow
  | minimiseMainWindow
  | unminimiseMainWindow
  | reloadInProgressWindow
  | showInProgressWindow
  | closeInProgressWindow
  | closeCameraWindow
  | takeFeeds
  | playSound (name : String)
  | emitEv (name : String)
  | clearSession
  | handlePause
  | handleResume
  | handleStop
  | handleCancel
  | sleep (ms : Nat)
  | removeDirAll (path : String)
  | remoteVideoDelete (video_id : String)
  | createDir (path : String)
  | spawnScreenshotTask (source : String)
  | openLink (url : String)
  | spawnUploadTask
  | screenshotAttach (video_id : String)
  | uploadFullWithScreenshot (video_id : String)
  | writeConfig (config : ProjectConfiguration)
  | writeMeta
  | showEditor (path : String)
  | showOverlayWindow
deriving DecidableEq, Repr

/-- Outcomes of every external call recording.rs makes: the filesystem,
the auth store, the remote video service, the capture engine, the
settings and preset stores, and which UI windows currently exist. -/
structure Env where
  fresh_id : String
  ensure_dir_ok : Bool
  logfile_ok : Bool
  reload_logging_ok : Bool
  on_screen_windows : List (Nat × String)
  camera_window_present : Bool
  main_window_present : Bool
  inprogress_window_present : Bool
  main_start_behaviour : MainWindowRecordingStartBehaviour
  auth : Option Unit
  create_video : Option String
  display_for_window : Nat → Nat
  spawn_studio : Except String Nat
  spawn_instant : Except String Nat
  pause_result : Except String Unit
  resume_result : Except String Unit
  stop_instant : Except String CompletedInstantRecording
  stop_studio : Except String CompletedStudioRecording
  cancel_result : Except String Unit
  recordings_meta : Except String ProjectRecordingsMeta
  default_preset : Except String (Option ProjectConfiguration)
  config_write_ok : Bool
  progressive_upload_succeeded : Bool
  meta_save_ok : Bool
  post_studio_behaviour : PostStudioRecordingBehaviour

/-- The per-session directory path derived from the fresh id
(app_data_dir/recordings/{id}.cap). -/
def recordings_path (id : String) : String :=
  "recordings/" ++ id ++ ".cap"

/-- Target-name derivation inside start_recording: area targets are
named Area, a window target resolves to the owner name of the matching
on-screen window (else Window), a screen target uses its platform title
(else Screen). -/
def target_name_of (env : Env) : ScreenCaptureTarget → String
  | .area _ => "Area"
  | .window id =>
    match env.on_screen_windows.find? (fun w => w.1 == id) with
    | some w => w.2
    | none => "Window"
  | .screen _ title => title.getD "Screen"

/-- Padding constant of the disabled zoom heuristic,
ZOOM_SEGMENT_AFTER_CLICK_PADDING = 1.5 seconds. -/
def ZOOM_SEGMENT_AFTER_CLICK_PADDING : ℚ := 3 / 2

/-- From fn generate_zoom_segments_from_clicks: binds the total duration
and would walk the click list, but the entire click-driven generation is
commented out in the source, so the accumulator is returned untouched. -/
def generate_zoom_segments_from_clicks (recording : CompletedStudioRecording)
    (recordings : ProjectRecordingsMeta) : List ZoomSegment :=
  let segments : List ZoomSegment := []
  let _max_duration := recordings.duration
  let _clicks := recording.clicks
  segments

/-- From fn project_config_from_recording: one timeline segment per
capture segment (full duration, unscaled), zoom segments from the click
generator, every other field copied from the default preset. -/
def project_config_from_recording (completed_recording : CompletedStudioRecording)
    (recordings : ProjectRecordingsMeta)
    (default_config : Option ProjectConfiguration) : ProjectConfiguration :=
  { timeline := some {
      segments := recordings.segments.enum.map fun is =>
        { recording_segment := is.1
          start := 0
          «end» := is.2.duration
          timescale := 1 }
      zoom_segments := generate_zoom_segments_from_clicks completed_recording recordings }
    rest := (default_config.getD default).rest }

/-- From fn start_recording.  Follows the statement order of the source:
create the session directory and log file, redirect logging, derive the
target name, protect the camera window, then for Instant mode check
authentication and pre-create the remote video, show the occlusion
overlay, spawn the progressive upload and the capture actor (which
builds and stores the Session under the lock), spawn the monitor task,
adjust the main and in-progress windows, play the start sound and emit
RecordingStarted.  I/O error messages keep the Rust format prefix. -/
def start_recording (env : Env) (st : App) (inputs : StartRecordingInputs) :
    Except String Unit × App × List Effect :=
  let id := env.fresh_id
  let recording_dir := recordings_path id
  if !env.ensure_dir_ok then
    (.error "Failed to create recording directory", st, [.ensureDir recording_dir])
  else if !env.logfile_ok then
    (.error "Failed to create logfile", st,
      [.ensureDir recording_dir, .createLogfile (recording_dir ++ "/recording-logs.log")])
  else if !env.reload_logging_ok then
    (.error "Failed to reload logging layer", st,
      [.ensureDir recording_dir, .createLogfile (recording_dir ++ "/recording-logs.log"),
       .reloadLogging true])
  else
    let tr0 := [Effect.ensureDir recording_dir,
      .createLogfile (recording_dir ++ "/recording-logs.log"), .reloadLogging true]
    let target_name := target_name_of env inputs.capture_target
    let tr1 := tr0 ++ (if env.camera_window_present then
        [Effect.setContentProtected (inputs.mode == .studio)] else [])
    let pre : Except String (Option VideoUploadInfo × List Effect) :=
      match inputs.mode with
      | .instant =>
        match env.auth with
        | some _ =>
          match env.create_video with
          | some vid => .ok (some ⟨vid, "/s/" ++ vid, vid⟩, [Effect.preCreateVideo])
          | none => .ok (none, [Effect.preCreateVideo])
        | none => .error "Please sign in to use instant recording"
      | .studio => .ok (none, [])
    match pre with
    | .error e => (.error e, st, tr1)
    | .ok (video_upload_info, trPre) =>
      let tr2 := tr1 ++ trPre ++
        (match inputs.capture_target with
          | .window wid => [Effect.showOccluder (env.display_for_window wid)]
          | .area screen => [Effect.showOccluder screen]
          | .screen _ _ => [])
      let progressive_upload : Option Unit :=
        match video_upload_info, inputs.mode with
        | some _, .instant => some ()
        | _, _ => none
      let tr3 := tr2 ++
        (match progressive_upload with
          | some _ => [Effect.spawnMultipartUpload]
          | none => []) ++ [Effect.spawnCaptureActor]
      let actorResult : Except String InProgressRecording :=
        match inputs.mode with
        | .studio =>
          match env.spawn_studio with
          | .ok handle => .ok (.studio target_name handle inputs recording_dir)
          | .error e => .error e
        | .instant =>
          match video_upload_info with
          | none => .error "Video upload info not found"
          | some info =>
            match env.spawn_instant with
            | .ok handle =>
              .ok (.instant target_name handle progressive_upload info inputs recording_dir)
            | .error e => .error e
      match actorResult with
      | .error e => (.error e, st, tr3)
      | .ok actor =>
        let st1 := st.set_current_recording actor
        (.ok (), st1,
          tr3 ++ [Effect.storeSession, .spawnMonitor]
            ++ (if env.main_window_present then
                  match env.main_start_behaviour with
                  | .close => [Effect.closeMainWindow]
                  | .minimise => [Effect.minimiseMainWindow]
                else [])
            ++ (if env.inprogress_window_present then [Effect.reloadInProgressWindow]
                else [Effect.showInProgressWindow])
            ++ [Effect.playSound "StartRecording", .emitEv "RecordingStarted"])

/-- From fn pause_recording: delegate to the active handle, success when
no session is active. -/
def pause_recording (env : Env) (st : App) : Except String Unit × App × List Effect :=
  match st.current_recording with
  | none => (.ok (), st, [])
  | some _ =>
    match env.pause_result with
    | .ok _ => (.ok (), st, [Effect.handlePause])
    | .error e => (.error e, st, [Effect.handlePause])

/-- From fn resume_recording: delegate to the active handle, success when
no session is active. -/
def resume_recording (env : Env) (st : App) : Except String Unit × App × List Effect :=
  match st.current_recording with
  | none => (.ok (), st, [])
  | some _ =>
    match env.resume_result with
    | .ok _ => (.ok (), st, [Effect.handleResume])
    | .error e => (.error e, st, [Effect.handleResume])

/-- From InProgressRecording::stop: stop the handle and repackage the
session's bookkeeping into a CompletedRecording. -/
def InProgressRecording.stop (env : Env) :
    InProgressRecording → Except String CompletedRecording
  | .instant target_name _ progressive_upload video_upload_info _ _ =>
    env.stop_instant.map fun recording =>
      .instant recording target_name progressive_upload video_upload_info
  | .studio target_name _ _ _ =>
    env.stop_studio.map fun recording => .studio recording target_name

/-- Source of the representative screenshot inside
handle_recording_finish: the first segment's display capture for studio
recordings, the muxed output file for instant ones.  The Rust code
indexes segments[0] and would panic on an empty segment list; the model
falls back to the empty path there. -/
def display_output_path_of (recording_dir : String) : CompletedRecording → String
  | .studio recording _ =>
    match recording.meta with
    | .singleSegment p => recording_dir ++ "/" ++ p
    | .multipleSegments ps => recording_dir ++ "/" ++ ps.headD ""
  | .instant recording _ _ _ => recording.project_path ++ "/content/output.mp4"

/-- The detached upload task spawned by handle_recording_finish for an
instant recording: nothing at all when no progressive upload handle is
present; otherwise a screenshot-attach call when the progressive upload
succeeded, or one full-file-plus-screenshot upload when it failed. -/
def instant_upload_task (env : Env) (progressive_upload : Option Unit)
    (video_upload_info : VideoUploadInfo) : List Effect :=
  match progressive_upload with
  | none => []
  | some _ =>
    if env.progressive_upload_succeeded then
      [Effect.screenshotAttach video_upload_info.id]
    else
      [Effect.uploadFullWithScreenshot video_upload_info.id]

/-- From fn handle_recording_finish: create the screenshots directory,
spawn the screenshot task, then per mode write the project configuration
(studio) or open the link and spawn the upload task (instant), persist
the recording metadata, run the post-studio behaviour and play the stop
sound. -/
def handle_recording_finish (env : Env) (completed_recording : CompletedRecording) :
    Except String Unit × List Effect :=
  let recording_dir := completed_recording.project_path
  let screenshots_dir := recording_dir ++ "/screenshots"
  let display_output_path := display_output_path_of recording_dir completed_recording
  let tr0 := [Effect.createDir screenshots_dir, .spawnScreenshotTask display_output_path]
  match completed_recording with
  | .studio recording _ =>
    match env.recordings_meta with
    | .error e => (.error e, tr0)
    | .ok recordings =>
      match env.default_preset with
      | .error e => (.error e, tr0)
      | .ok preset =>
        let config := project_config_from_recording recording recordings preset
        if !env.config_write_ok then
          (.error "config write failed", tr0 ++ [Effect.writeConfig config])
        else
          let tr1 := tr0 ++ [Effect.writeConfig config, Effect.writeMeta]
          if !env.meta_save_ok then
            (.error "Failed to save recording meta", tr1)
          else
            (.ok (), tr1 ++
              (match env.post_studio_behaviour with
                | .openEditor => [Effect.showEditor recording_dir]
                | .showOverlay => [Effect.showOverlayWindow, .sleep 1000,
                    .emitEv "NewStudioRecordingAdded"]) ++
              [Effect.playSound "StopRecording"])
  | .instant _ _ progressive_upload video_upload_info =>
    let tr1 := tr0 ++ [Effect.openLink video_upload_info.link, .spawnUploadTask]
      ++ instant_upload_task env progressive_upload video_upload_info
      ++ [Effect.writeMeta]
    if !env.meta_save_ok then
      (.error "Failed to save recording meta", tr1)
    else
      (.ok (), tr1 ++ [Effect.playSound "StopRecording"])

/-- From fn handle_recording_end: take the current recording once more,
finalize a completed recording when there is one, then emit
RecordingStopped, drop the log redirection, close the in-progress
window, and either unminimize the main window or close the camera window
and release both feeds, finishing with CurrentRecordingChanged. -/
def handle_recording_end (env : Env) (recording : Option CompletedRecording)
    (st : App) : Except String Unit × App × List Effect :=
  let st1 : App := { st with current_recording := none }
  let finish :=
    match recording with
    | some rec => handle_recording_finish env rec
    | none => (.ok (), [])
  match finish with
  | (.error e, trF) => (.error e, st1, Effect.clearSession :: trF)
  | (.ok _, trF) =>
    let (st2, trMain) :=
      if env.main_window_present then (st1, [Effect.unminimiseMainWindow])
      else ({ st1 with camera_feed := none, mic_feed := none },
        (if env.camera_window_present then [Effect.closeCameraWindow] else [])
          ++ [Effect.takeFeeds])
    (.ok (), st2,
      Effect.clearSession :: trF
        ++ [Effect.emitEv "RecordingStopped", .reloadLogging false]
        ++ (if env.inprogress_window_present then [Effect.closeInProgressWindow] else [])
        ++ trMain ++ [Effect.emitEv "CurrentRecordingChanged"])

/-- From fn stop_recording: clear the session slot (error when empty),
stop the owned handle, then run handle_recording_end on the completed
recording. -/
def stop_recording (env : Env) (st : App) : Except String Unit × App × List Effect :=
  match st.clear_current_recording with
  | (none, _) => (.error "Recording not in progress", st, [])
  | (some current_recording, st1) =>
    let inner :=
      match current_recording.stop env with
      | .error e => ((Except.error e : Except String Unit), st1, ([] : List Effect))
      | .ok completed => handle_recording_end env (some completed) st1
    (inner.1, inner.2.1, Effect.clearSession :: Effect.handleStop :: inner.2.2)

/-- From fn restart_recording: clear the session slot (error when empty),
emit CurrentRecordingChanged, keep the original inputs, cancel the
handle best-effort, sleep the fixed settling delay, then run
start_recording again with those inputs. -/
def restart_recording (env : Env) (st : App) : Except String Unit × App × List Effect :=
  match st.clear_current_recording with
  | (none, _) => (.error "No recording in progress", st, [])
  | (some recording, st1) =>
    let inputs := recording.inputs
    let r := start_recording env st1 inputs
    (r.1, r.2.1,
      Effect.clearSession :: Effect.emitEv "CurrentRecordingChanged"
        :: Effect.handleCancel :: Effect.sleep 1000 :: r.2.2)

/-- Spec-side composition for the restart equivalence claim: cancel the
current handle, wait the fixed settling delay, then call start_recording
with the session's original inputs unchanged. -/
def cancel_then_start (env : Env) (st : App) : Except String Unit × App × List Effect :=
  match st.clear_current_recording with
  | (none, _) => (.error "No recording in progress", st, [])
  | (some recording, st1) =>
    let r := start_recording env st1 recording.inputs
    (r.1, r.2.1,
      Effect.clearSession :: Effect.handleCancel :: Effect.sleep 1000 :: r.2.2)

/-- From fn delete_recording: when a session is active, clear the slot,
emit CurrentRecordingChanged and RecordingStopped, cancel the handle
best-effort, remove the recording directory, and for instant sessions
issue a best-effort remote video delete; always succeeds.  The results
of the cancel, the directory removal and the remote delete are all
discarded by the source, so the environment is never consulted. -/
def delete_recording (_env : Env) (st : App) : Except String Unit × App × List Effect :=
  match st.clear_current_recording with
  | (none, _) => (.ok (), st, [])
  | (some recording, st1) =>
    let recording_dir := recording.recording_dir
    let video_id :=
      match recording with
      | .instant _ _ _ video_upload_info _ _ => some video_upload_info.id
      | .studio _ _ _ _ => none
    (.ok (), st1,
      Effect.clearSession :: Effect.emitEv "CurrentRecordingChanged"
        :: Effect.emitEv "RecordingStopped" :: Effect.handleCancel
        :: Effect.removeDirAll recording_dir
        :: (match video_id with
            | some vid => [Effect.remoteVideoDelete vid]
            | none => []))

/-- Classifier for the terminal operations of a capture handle. -/
def isTerminalOp : Effect → Bool
  | .handleStop => true
  | .handleCancel => true
  | _ => false

/-- Classifier for full-file fallback uploads. -/
def isFullUpload : Effect → Bool
  | .uploadFullWithScreenshot _ => true
  | _ => false

/-- Classifier for screenshot-attach calls. -/
def isScreenshotAttach : Effect → Bool
  | .screenshotAttach _ => true
  | _ => false

/-- Classifier for remote video delete requests. -/
def isRemoteDelete : Effect → Bool
  | .remoteVideoDelete _ => true
  | _ => false

/-- Classifier for recording-metadata writes. -/
def isWriteMeta : Effect → Bool
  | .writeMeta => true
  | _ => false

/-- Classifier for fire-and-forget UI notifications. -/
def isNotification : Effect → Bool
  | .emitEv _ => true
  | _ => false

/-- A trace with the fire-and-forget UI notifications stripped; the
design treats their multiplicity as a free variable, so equivalences are
stated over this view. -/
def observable_trace (tr : List Effect) : List Effect :=
  tr.filter fun e => !isNotification e

/-- Every terminal handle operation in the trace is preceded by a
clearing of the session slot. -/
def clear_precedes_terminals (tr : List Effect) : Prop :=
  ∀ j e, tr.get? j = some e → isTerminalOp e = true →
    ∃ i, i < j ∧ tr.get? i = some Effect.clearSession

/-- A trace headed by a session-slot clear satisfies
clear_precedes_terminals: the clear at position zero precedes any
terminal operation, which can never itself sit at position zero. -/
theorem clear_precedes_of_head (tr : List Effect)
    (h : tr.get? 0 = some Effect.clearSession) :
    clear_precedes_terminals tr := by
  intro j e hj ht
  refine ⟨0, ?_, h⟩
  cases j with
  | zero =>
    have he : some e = some Effect.clearSession := hj.symm.trans h
    injection he with he
    subst he
    simp [isTerminalOp] at ht
  | succ n => exact Nat.succ_pos n

/-- A fully populated environment in which every external call succeeds,
used to instantiate the hypotheses of the theorems below. -/
def envBase : Env :=
  { fresh_id := "u2"
    ensure_dir_ok := true
    logfile_ok := true
    reload_logging_ok := true
    on_screen_windows := []
    camera_window_present := false
    main_window_present := true
    inprogress_window_present := false
    main_start_behaviour := .minimise
    auth := some ()
    create_video := some "vid1"
    display_for_window := fun _ => 0
    spawn_studio := .ok 1
    spawn_instant := .ok 1
    pause_result := .ok ()
    resume_result := .ok ()
    stop_instant := .ok ⟨"u1", "recordings/u1.cap"⟩
    stop_studio := .ok ⟨"u1", "recordings/u1.cap", .singleSegment "content/display.mp4", []⟩
    cancel_result := .ok ()
    recordings_meta := .ok ⟨[⟨10⟩]⟩
    default_preset := .ok none
    config_write_ok := true
    progressive_upload_succeeded := true
    meta_save_ok := true
    post_studio_behaviour := .openEditor }

/-- Environment in which the user is authenticated but pre-creation of
the remote video record fails. -/
def envNoTicket : Env := { envBase with create_video := none }

/-- Environment with no authenticated identity. -/
def envNoAuth : Env := { envBase with auth := none }

/-- Application state with no active session. -/
def st0 : App := ⟨none, none, none⟩

/-- A concrete pre-created upload ticket. -/
def infoX : VideoUploadInfo := ⟨"vid1", "/s/vid1", "vid1"⟩

/-- Concrete instant-mode start inputs. -/
def inputsInstant : StartRecordingInputs := ⟨.screen 1 (some "Display 1"), false, .instant⟩

/-- Concrete studio-mode start inputs. -/
def inputsStudio : StartRecordingInputs := ⟨.screen 1 (some "Display 1"), false, .studio⟩

/-- A concrete active instant session. -/
def sessionInstant : InProgressRecording :=
  .instant "Display 1" 1 (some ()) infoX inputsInstant "recordings/u1.cap"

/-- A concrete active studio session. -/
def sessionStudio : InProgressRecording :=
  .studio "Display 1" 1 inputsStudio "recordings/u1.cap"

/-- Application state holding the instant session. -/
def stInstant : App := ⟨some sessionInstant, none, none⟩

/-- A completed instant recording carrying no progressive-upload handle. -/
def completedInstantNone : CompletedRecording :=
  .instant ⟨"u1", "recordings/u1.cap"⟩ "Display 1" none infoX

/-- C1 counterexample: with an authenticated user whose remote video
pre-creation fails, start_recording in Instant mode does not proceed and
stores no Session - it returns the error Video upload info not found and
leaves the session slot empty, refuting the claim that capture proceeds
with an absent upload ticket. -/
theorem instant_precreate_failure_refutes_graceful_start :
    (start_recording envNoTicket st0 inputsInstant).1
        = .error "Video upload info not found" ∧
    (start_recording envNoTicket st0 inputsInstant).2.1.current_recording = none := by
  constructor <;> rfl

/-- C1 amended: in Instant mode with an authenticated identity, when
pre-creation of the remote video record fails, start_recording fails
with the error Video upload info not found and the application state is
unchanged - no Session is stored (the session type has no room for an
instant session without an upload ticket). -/
theorem instant_precreate_failure_no_session (env : Env) (st : App)
    (inputs : StartRecordingInputs) (hmode : inputs.mode = .instant)
    (hauth : env.auth.isSome = true) (hcv : env.create_video = none)
    (h1 : env.ensure_dir_ok = true) (h2 : env.logfile_ok = true)
    (h3 : env.reload_logging_ok = true) :
    (start_recording env st inputs).1 = .error "Video upload info not found" ∧
    (start_recording env st inputs).2.1 = st := by
  obtain ⟨u, hu⟩ := Option.isSome_iff_exists.mp hauth
  simp [start_recording, hmode, hu, hcv, h1, h2, h3]

/-- C1 witness: the amended theorem applied at a concrete environment
and state. -/
theorem instant_precreate_failure_no_session_witness :
    (start_recording envNoTicket st0 inputsInstant).1
        = .error "Video upload info not found" ∧
    (start_recording envNoTicket st0 inputsInstant).2.1 = st0 :=
  instant_precreate_failure_no_session envNoTicket st0 inputsInstant
    rfl rfl rfl rfl rfl rfl

/-- C2 counterexample: starting Instant mode unauthenticated does return
the advertised error, but the recording directory has already been
created on disk before the authentication check, refuting the claim that
no directory is created on that error path. -/
theorem unauthenticated_instant_creates_directory :
    (start_recording envNoAuth st0 inputsInstant).1
        = .error "Please sign in to use instant recording" ∧
    Effect.ensureDir (recordings_path envNoAuth.fresh_id)
        ∈ (start_recording envNoAuth st0 inputsInstant).2.2 := by
  constructor
  · rfl
  · decide

/-- C2 amended: starting Instant mode with no authenticated identity
returns the error Please sign in to use instant recording and stores no
Session, but the per-session recording directory and its log file are
created before the authentication check and remain on disk. -/
theorem unauthenticated_instant_rejected (env : Env) (st : App)
    (inputs : StartRecordingInputs) (hmode : inputs.mode = .instant)
    (hauth : env.auth = none) (h1 : env.ensure_dir_ok = true)
    (h2 : env.logfile_ok = true) (h3 : env.reload_logging_ok = true) :
    (start_recording env st inputs).1
        = .error "Please sign in to use instant recording" ∧
    (start_recording env st inputs).2.1 = st ∧
    Effect.ensureDir (recordings_path env.fresh_id)
        ∈ (start_recording env st inputs).2.2 ∧
    Effect.createLogfile (recordings_path env.fresh_id ++ "/recording-logs.log")
        ∈ (start_recording env st inputs).2.2 := by
  simp [start_recording, hmode, hauth, h1, h2, h3]

/-- C2 witness: the amended theorem applied at a concrete environment
and state. -/
theorem unauthenticated_instant_rejected_witness :
    (start_recording envNoAuth st0 inputsInstant).1
        = .error "Please sign in to use instant recording" ∧
    (start_recording envNoAuth st0 inputsInstant).2.1 = st0 ∧
    Effect.ensureDir (recordings_path envNoAuth.fresh_id)
        ∈ (start_recording envNoAuth st0 inputsInstant).2.2 ∧
    Effect.createLogfile (recordings_path envNoAuth.fresh_id ++ "/recording-logs.log")
        ∈ (start_recording envNoAuth st0 inputsInstant).2.2 :=
  unauthenticated_instant_rejected envNoAuth st0 inputsInstant rfl rfl rfl rfl rfl

/-- C3 counterexample: finalizing an instant recording that carries no
progressive-upload handle attempts zero full-file uploads, not exactly
one as claimed. -/
theorem no_ticket_finish_zero_not_one_upload :
    ((handle_recording_finish envBase completedInstantNone).2.countP isFullUpload = 0) ∧
    ¬ ((handle_recording_finish envBase completedInstantNone).2.countP isFullUpload = 1) := by
  constructor
  · decide
  · decide

/-- C3 amended: for an instant recording finalized with no
progressive-upload handle, finalization attempts no upload at all -
neither a full-file-plus-screenshot upload nor a screenshot-attach call
(the full fallback runs only when a progressive upload was started and
failed; sessions without a ticket cannot be created by start_recording
in the first place). -/
theorem no_ticket_finish_attempts_no_upload (env : Env)
    (recording : CompletedInstantRecording) (target_name : String)
    (video_upload_info : VideoUploadInfo) :
    ((handle_recording_finish env
        (.instant recording target_name none video_upload_info)).2.countP
      isFullUpload = 0) ∧
    ((handle_recording_finish env
        (.instant recording target_name none video_upload_info)).2.countP
      isScreenshotAttach = 0) := by
  cases hm : env.meta_save_ok <;>
    simp [handle_recording_finish, instant_upload_task, hm,
      List.countP_cons, List.countP_append, isFullUpload, isScreenshotAttach]

/-- C4: for an instant recording whose progressive upload was started,
finalization issues no full-file upload and exactly one screenshot-attach
call when the progressive upload succeeded, and exactly one
full-file-plus-screenshot fallback upload and no screenshot-attach call
when it failed. -/
theorem progressive_outcome_determines_upload (env : Env)
    (recording : CompletedInstantRecording) (target_name : String)
    (pu : Unit) (video_upload_info : VideoUploadInfo) :
    ((handle_recording_finish env
        (.instant recording target_name (some pu) video_upload_info)).2.countP
      isFullUpload = if env.progressive_upload_succeeded then 0 else 1) ∧
    ((handle_recording_finish env
        (.instant recording target_name (some pu) video_upload_info)).2.countP
      isScreenshotAttach = if env.progressive_upload_succeeded then 1 else 0) := by
  cases hp : env.progressive_upload_succeeded <;>
    cases hm : env.meta_save_ok <;>
      simp [handle_recording_finish, instant_upload_task, hp, hm,
        List.countP_cons, List.countP_append, isFullUpload, isScreenshotAttach]

/-- C5: for every active session, each of stop_recording,
restart_recording and delete_recording clears the session slot strictly
before the handle's terminal operation, and each trace does contain a
terminal operation. -/
theorem session_cleared_before_terminal_op (env : Env) (st : App)
    (rec : InProgressRecording) (h : st.current_recording = some rec) :
    (clear_precedes_terminals (stop_recording env st).2.2 ∧
      (stop_recording env st).2.2.any isTerminalOp = true) ∧
    (clear_precedes_terminals (restart_recording env st).2.2 ∧
      (restart_recording env st).2.2.any isTerminalOp = true) ∧
    (clear_precedes_terminals (delete_recording env st).2.2 ∧
      (delete_recording env st).2.2.any isTerminalOp = true) := by
  refine ⟨⟨?_, ?_⟩, ⟨?_, ?_⟩, ⟨?_, ?_⟩⟩
  · exact clear_precedes_of_head _
      (by simp [stop_recording, App.clear_current_recording, h])
  · simp [stop_recording, App.clear_current_recording, h, isTerminalOp]
  · exact clear_precedes_of_head _
      (by simp [restart_recording, App.clear_current_recording, h])
  · simp [restart_recording, App.clear_current_recording, h, isTerminalOp]
  · exact clear_precedes_of_head _
      (by simp [delete_recording, App.clear_current_recording, h])
  · simp [delete_recording, App.clear_current_recording, h, isTerminalOp]

/-- C5 witness: the ordering theorem applied at a concrete environment
and an active instant session. -/
theorem session_cleared_before_terminal_op_witness :
    (clear_precedes_terminals (stop_recording envBase stInstant).2.2 ∧
      (stop_recording envBase stInstant).2.2.any isTerminalOp = true) ∧
    (clear_precedes_terminals (restart_recording envBase stInstant).2.2 ∧
      (restart_recording envBase stInstant).2.2.any isTerminalOp = true) ∧
    (clear_precedes_terminals (delete_recording envBase stInstant).2.2 ∧
      (delete_recording envBase stInstant).2.2.any isTerminalOp = true) :=
  session_cleared_before_terminal_op envBase stInstant sessionInstant rfl

/-- C6: when no session is active, pause_recording and resume_recording
return success as pure no-ops, while stop_recording returns the error
Recording not in progress. -/
theorem noop_lifecycle_when_no_session (env : Env) (st : App)
    (h : st.current_recording = none) :
    pause_recording env st = (.ok (), st, []) ∧
    resume_recording env st = (.ok (), st, []) ∧
    stop_recording env st = (.error "Recording not in progress", st, []) := by
  refine ⟨?_, ?_, ?_⟩ <;>
    simp [pause_recording, resume_recording, stop_recording,
      App.clear_current_recording, h]

/-- C6 witness: the no-session theorem applied at a concrete environment
and the empty state. -/
theorem noop_lifecycle_when_no_session_witness :
    pause_recording envBase st0 = (.ok (), st0, []) ∧
    resume_recording envBase st0 = (.ok (), st0, []) ∧
    stop_recording envBase st0 = (.error "Recording not in progress", st0, []) :=
  noop_lifecycle_when_no_session envBase st0 rfl

/-- C7: for every active session, restart_recording returns the same
result and final state as cancelling the current handle followed by
start_recording with the session's original inputs unchanged, with only
the fixed settling delay in between; the effect traces agree once the
fire-and-forget UI notifications are stripped. -/
theorem restart_equiv_cancel_then_start (env : Env) (st : App)
    (rec : InProgressRecording) (h : st.current_recording = some rec) :
    (restart_recording env st).1 = (cancel_then_start env st).1 ∧
    (restart_recording env st).2.1 = (cancel_then_start env st).2.1 ∧
    observable_trace (restart_recording env st).2.2
      = observable_trace (cancel_then_start env st).2.2 := by
  simp [restart_recording, cancel_then_start, App.clear_current_recording, h,
    observable_trace, isNotification]

/-- C7 witness: the equivalence theorem applied at a concrete
environment and an active instant session. -/
theorem restart_equiv_cancel_then_start_witness :
    (restart_recording envBase stInstant).1 = (cancel_then_start envBase stInstant).1 ∧
    (restart_recording envBase stInstant).2.1
      = (cancel_then_start envBase stInstant).2.1 ∧
    observable_trace (restart_recording envBase stInstant).2.2
      = observable_trace (cancel_then_start envBase stInstant).2.2 :=
  restart_equiv_cancel_then_start envBase stInstant sessionInstant rfl

/-- C8: the project configuration computed at studio finalization has
one timeline segment per capture segment - numbered in order, starting
at zero, ending at that segment's duration, with timescale one - and its
zoom-segment list is empty whatever the recorded click events were. -/
theorem studio_config_segments_and_no_zoom
    (recording : CompletedStudioRecording) (recordings : ProjectRecordingsMeta)
    (default_config : Option ProjectConfiguration) :
    ∃ tl, (project_config_from_recording recording recordings default_config).timeline
        = some tl ∧
      tl.zoom_segments = [] ∧
      tl.segments.length = recordings.segments.length ∧
      ∀ i : Nat, tl.segments[i]? = (recordings.segments[i]?).map
        (fun seg => ⟨i, 0, seg.duration, 1⟩) := by
  refine ⟨_, rfl, rfl, ?_, ?_⟩
  · simp [project_config_from_recording]
  · intro i
    simp [project_config_from_recording, List.getElem?_map, List.getElem?_enum]
    cases recordings.segments[i]? <;> rfl

/-- C9: deleting an active session always succeeds, never writes a
recording-metadata entry, always attempts removal of the session's
recording directory, always invokes the handle's cancel, and issues a
remote video delete exactly when the session is an instant one. -/
theorem delete_active_session (env : Env) (st : App)
    (rec : InProgressRecording) (h : st.current_recording = some rec) :
    (delete_recording env st).1 = .ok () ∧
    (delete_recording env st).2.1.current_recording = none ∧
    (delete_recording env st).2.2.all (fun e => !isWriteMeta e) = true ∧
    Effect.removeDirAll rec.recording_dir ∈ (delete_recording env st).2.2 ∧
    Effect.handleCancel ∈ (delete_recording env st).2.2 ∧
    (delete_recording env st).2.2.countP isRemoteDelete
      = (if rec.isInstant then 1 else 0) := by
  cases rec <;>
    simp [delete_recording, App.clear_current_recording, h, isWriteMeta,
      isRemoteDelete, InProgressRecording.recording_dir,
      InProgressRecording.isInstant, List.countP_cons]

/-- C9 witness: the deletion theorem applied at a concrete environment
and an active instant session. -/
theorem delete_active_session_witness :
    (delete_recording envBase stInstant).1 = .ok () ∧
    (delete_recording envBase stInstant).2.1.current_recording = none ∧
    (delete_recording envBase stInstant).2.2.all (fun e => !isWriteMeta e) = true ∧
    Effect.removeDirAll sessionInstant.recording_dir
      ∈ (delete_recording envBase stInstant).2.2 ∧
    Effect.handleCancel ∈ (delete_recording envBase stInstant).2.2 ∧
    (delete_recording envBase stInstant).2.2.countP isRemoteDelete
      = (if sessionInstant.isInstant then 1 else 0) :=
  delete_active_session envBase stInstant sessionInstant rfl

/-- C10: when no session is active, delete_recording succeeds with no
side effects - the state is untouched and the effect trace is empty -
while stop_recording and restart_recording return errors in that same
state. -/
theorem delete_noop_when_no_session (env : Env) (st : App)
    (h : st.current_recording = none) :
    delete_recording env st = (.ok (), st, []) ∧
    (stop_recording env st).1 = .error "Recording not in progress" ∧
    (restart_recording env st).1 = .error "No recording in progress" := by
  refine ⟨?_, ?_, ?_⟩ <;>
    simp [delete_recording, stop_recording, restart_recording,
      App.clear_current_recording, h]

/-- C10 witness: the no-session deletion theorem applied at a concrete
environment and the empty state. -/
theorem delete_noop_when_no_session_witness :
    delete_recording envBase st0 = (.ok (), st0, []) ∧
    (stop_recording envBase st0).1 = .error "Recording not in progress" ∧
    (restart_recording envBase st0).1 = .error "No recording in progress" :=
  delete_noop_when_no_session envBase st0 rfl

end Cap
